import Mathlib

/-!
Verification of the Doll-Collection client core against its specification.

The development shallowly embeds the two testable components of the app:

* the collection view engine (`processedDolls` in the topic view module):
  search, filter (`ALL` / `NEW` / `DATE_FILTER` / category id) and sort
  (`DATE_DESC` / `DATE_ASC` / `NAME_ASC` / `NAME_DESC`);
* the image normalization pipeline (`compressImage` in the utils module),
  restricted to its target-dimension computation;
* the submit validation path (`handleSubmit`) and the AI service wrappers
  (`identifyDoll`, `suggestCategory` in `geminiService.ts`).

Timestamps are modelled as integer epoch milliseconds (the value of
`new Date(s).getTime()` on the stored ISO string); JavaScript `Array.sort`
with a comparator is modelled by the stable `List.mergeSort` on the
nonpositive part of the comparator, which the ECMAScript specification makes
observationally equal; `String.prototype.localeCompare` is modelled as
code-point lexicographic three-way comparison.
-/

/-- Three-way lexicographic comparison of character lists, returning
`-1`, `0` or `1`; the model of JavaScript `localeCompare` restricted to
code-point order. -/
def strCmp : List Char → List Char → Int
  | [], [] => 0
  | [], _ :: _ => -1
  | _ :: _, [] => 1
  | a :: as, b :: bs =>
    if a < b then -1 else if b < a then 1 else strCmp as bs

/-- Model of `a.localeCompare(b)`: code-point lexicographic comparison of
the two strings, returning a negative, zero or positive integer. -/
def localeCompare (a b : String) : Int :=
  strCmp a.toList b.toList

/-- Model of JavaScript `s.startsWith(p)`: `p` is a prefix of `s`. -/
def jsStartsWith (s p : String) : Bool :=
  p.toList.isPrefixOf s.toList

/-- Membership of `needle` as a contiguous run inside `hay`. -/
def containsSeg (needle : List Char) : List Char → Bool
  | [] => needle.isEmpty
  | c :: t => needle.isPrefixOf (c :: t) || containsSeg needle t

/-- Model of JavaScript `s.includes(sub)`: `sub` occurs as a contiguous
substring of `s`. -/
def jsIncludes (s sub : String) : Bool :=
  containsSeg sub.toList s.toList

/-- Model of JavaScript `s.toLowerCase()` (code-point wise lowercasing). -/
def jsToLower (s : String) : String :=
  s.toLower

/-- Ceiling division on naturals: `Math.ceil(n / d)` for an exact
nonnegative quotient. -/
def ceilDivNat (n d : Nat) : Nat :=
  (n + d - 1) / d

/-- An item of the collection, translated from the `Doll` interface in
`types.ts`. `created_at` is stored in the app as an ISO timestamp string
and only ever consumed through `new Date(created_at).getTime()`; it is
modelled here as that integer number of epoch milliseconds. -/
structure Doll where
  id : String
  name : String
  description : Option String
  size : String
  category_id : Option String
  topic_id : String
  catch_date : Option String
  image_url : String
  created_at : Int
  deriving DecidableEq

/-- Milliseconds per day, the divisor `1000 * 60 * 60 * 24` used by both
day-count computations. -/
def msPerDay : Nat := 1000 * 60 * 60 * 24

/-- The `NEW` filter predicate of `processedDolls`: the age
`Math.ceil(Math.abs(now - created) / 86400000)` in whole days is at
most 30. -/
def newPred (nowMs : Int) (d : Doll) : Bool :=
  ceilDivNat (nowMs - d.created_at).natAbs msPerDay ≤ 30

/-- The badge computation `isNew` of `DollCard.tsx`, textually the same
day-count rule as the `NEW` filter. -/
def isNewBadge (nowMs : Int) (d : Doll) : Bool :=
  ceilDivNat (nowMs - d.created_at).natAbs msPerDay ≤ 30

/-- The search predicate of `processedDolls`: name or (non-null)
description contains the query, case-insensitively. A null description
short-circuits the second disjunct to false. -/
def searchPred (q : String) (d : Doll) : Bool :=
  jsIncludes (jsToLower d.name) (jsToLower q) ||
    (match d.description with
     | some desc => jsIncludes (jsToLower desc) (jsToLower q)
     | none => false)

/-- The `DATE_FILTER` predicate of `processedDolls`:
`d.catch_date && d.catch_date.startsWith(dateFilterValue)`, with a null
`catch_date` coerced to false. -/
def catchPred (v : String) (d : Doll) : Bool :=
  match d.catch_date with
  | some s => jsStartsWith s v
  | none => false

/-- The search stage of `processedDolls`: filter only when the query is
truthy, i.e. non-empty. -/
def searchStep (q : String) (l : List Doll) : List Doll :=
  if q = "" then l else l.filter (searchPred q)

/-- The filter stage of `processedDolls`: the `NEW`, `DATE_FILTER`,
category-id and `ALL` branches, in the order of the source. -/
def filterStep (activeFilter dateFilterValue : String) (nowMs : Int)
    (l : List Doll) : List Doll :=
  if activeFilter = "NEW" then
    l.filter (newPred nowMs)
  else if activeFilter = "DATE_FILTER" then
    if dateFilterValue = "" then l else l.filter (catchPred dateFilterValue)
  else if activeFilter = "ALL" then
    l
  else
    l.filter (fun d => d.category_id == some activeFilter)

/-- The comparator passed to `result.sort`, by `sortOption`. -/
def jsCompare (sortOption : String) (a b : Doll) : Int :=
  if sortOption = "DATE_DESC" then b.created_at - a.created_at
  else if sortOption = "DATE_ASC" then a.created_at - b.created_at
  else if sortOption = "NAME_ASC" then localeCompare a.name b.name
  else if sortOption = "NAME_DESC" then localeCompare b.name a.name
  else 0

/-- The nonpositive part of the comparator: the total preorder that the
stable JavaScript `Array.sort` sorts by. -/
def jsLe (sortOption : String) (a b : Doll) : Bool :=
  jsCompare sortOption a b ≤ 0

/-- The sort stage of `processedDolls`: stable sort of the list by the
comparator of `sortOption`. -/
def sortDolls (sortOption : String) (l : List Doll) : List Doll :=
  l.mergeSort (jsLe sortOption)

/-- The whole `processedDolls` memo: search, then filter, then sort. -/
def processedDolls (searchQuery activeFilter dateFilterValue
    sortOption : String) (nowMs : Int) (dolls : List Doll) : List Doll :=
  sortDolls sortOption
    (filterStep activeFilter dateFilterValue nowMs
      (searchStep searchQuery dolls))

/-- Target-dimension computation of `compressImage` in the utils module:
cap the longer side at `MAX_SIZE = 1080`, scaling the other side by the
same factor; dimensions are exact rationals. -/
def compressDims (w h : ℚ) : ℚ × ℚ :=
  if w > h then
    if w > 1080 then (1080, h * (1080 / w)) else (w, h)
  else
    if h > 1080 then (w * (1080 / h), 1080) else (w, h)

/-- Modelled from the spec: the wording of the specification for the target
dimensions, "if width ≥ height and width > 1080, scale both by
1080/width; else if height > 1080, scale both by 1080/height; otherwise
leave dimensions unchanged". -/
def specDims (w h : ℚ) : ℚ × ℚ :=
  if w ≥ h ∧ w > 1080 then (w * (1080 / w), h * (1080 / w))
  else if h > 1080 then (w * (1080 / h), h * (1080 / h))
  else (w, h)

/-- The form state behind the add-doll modal, translated from
`NewDollForm` in `types.ts`. The image file is abstracted to its
presence and name. -/
structure NewDollForm where
  name : String
  description : String
  size : List String
  category_id : String
  catch_date : String
  imageFile : Option String
  deriving DecidableEq

/-- The externally visible effects `handleSubmit` can perform, in the
order the source performs them: image compression, storage upload,
public-URL lookup and the database insert. -/
inductive SubmitCall where
  | compress
  | upload
  | getPublicUrl
  | insert
  deriving DecidableEq

/-- Outcome of a `handleSubmit` run: one of the two validation alerts,
a failure of a collaborator call, or success. -/
inductive SubmitOutcome where
  | alertImageRequired
  | alertSizeRequired
  | failed
  | submitted
  deriving DecidableEq

/-- The create path `handleSubmit`: the two validation guards run first
and return before any collaborator is touched; afterwards compression,
upload, URL lookup and insert run in order, stopping at the first
collaborator failure (the flags model whether each collaborator call
succeeds). The returned list is the sequence of collaborator calls
actually made. -/
def handleSubmit (form : NewDollForm)
    (compressOk uploadOk insertOk : Bool) :
    SubmitOutcome × List SubmitCall :=
  if form.imageFile.isNone then (.alertImageRequired, [])
  else if form.size.length = 0 then (.alertSizeRequired, [])
  else if !compressOk then (.failed, [.compress])
  else if !uploadOk then (.failed, [.compress, .upload])
  else if !insertOk then
    (.failed, [.compress, .upload, .getPublicUrl, .insert])
  else (.submitted, [.compress, .upload, .getPublicUrl, .insert])

/-- Strip Markdown code fences from a model response, as
`cleanJsonText` in `geminiService.ts` does. -/
def cleanJsonText (text : String) : String :=
  ((text.replace "```json" "").replace "```" "").trim

/-- The structured result of `identifyDoll`, the three fields of its
response schema. -/
structure IdentifyResult where
  name : String
  description : String
  size : String
  deriving DecidableEq

/-- The fallback object returned by `identifyDoll` when anything in its
try block throws. -/
def identifyFallback : IdentifyResult :=
  { name := "", description := "", size := "Normal" }

/-- The fallible body of the try block of `identifyDoll`: convert the
file to base64, call the model, then parse the cleaned response text.
Each step is a collaborator that can throw, modelled by `Except`. -/
def identifyRun (fileRes : Except String String)
    (gen : String → Except String String)
    (parse : String → Except String IdentifyResult) :
    Except String IdentifyResult := do
  let b ← fileRes
  let t ← gen b
  parse (cleanJsonText t)

/-- The wrapper `identifyDoll` of `geminiService.ts`: run the fallible
body and catch any error into the fallback object, so the caller always
receives a plain result. -/
def identifyDoll (fileRes : Except String String)
    (gen : String → Except String String)
    (parse : String → Except String IdentifyResult) : IdentifyResult :=
  match identifyRun fileRes gen parse with
  | .ok r => r
  | .error _ => identifyFallback

/-- The fallible body of the try block of `suggestCategory`: convert the
file to base64, call the model, parse the cleaned text and extract the
`category` field (the empty string standing for a missing or empty
field, as JavaScript truthiness treats them alike). -/
def suggestRun (fileRes : Except String String)
    (gen : String → Except String String)
    (parse : String → Except String String) : Except String String := do
  let b ← fileRes
  let t ← gen b
  parse (cleanJsonText t)

/-- The wrapper `suggestCategory` of `geminiService.ts`: on success a
falsy category degrades to the string Misc, and any thrown error is
caught into the string Unknown. -/
def suggestCategory (fileRes : Except String String)
    (gen : String → Except String String)
    (parse : String → Except String String) : String :=
  match suggestRun fileRes gen parse with
  | .ok c => if c = "" then "Misc" else c
  | .error _ => "Unknown"

theorem strCmp_nil_nonpos (y : List Char) : strCmp [] y ≤ 0 := by
  cases y <;> simp [strCmp]

theorem strCmp_nonpos_iff (x y : List Char) :
    strCmp x y ≤ 0 ↔ ¬ List.Lex (· < ·) y x := by
  induction x generalizing y with
  | nil =>
    cases y with
    | nil => simp [strCmp]
    | cons b bs => simp [strCmp]
  | cons a as ih =>
    cases y with
    | nil =>
      simp only [strCmp]
      constructor
      · intro h; omega
      · intro h; exact absurd List.Lex.nil h
    | cons b bs =>
      simp only [strCmp]
      rcases lt_trichotomy a b with hab | heq | hba
      · rw [if_pos hab]
        constructor
        · intro _ hlex
          cases hlex with
          | cons h2 => exact absurd hab (lt_irrefl _)
          | rel h2 => exact absurd hab (lt_asymm h2)
        · intro _
          omega
      · subst heq
        rw [if_neg (lt_irrefl a), if_neg (lt_irrefl a)]
        rw [ih bs]
        constructor
        · intro h hlex
          cases hlex with
          | cons h2 => exact h h2
          | rel h2 => exact absurd h2 (lt_irrefl a)
        · intro h hl
          exact h (List.Lex.cons hl)
      · rw [if_neg (lt_asymm hba), if_pos hba]
        constructor
        · intro h; omega
        · intro h; exact absurd (List.Lex.rel hba) h

theorem localeCompare_nonpos_iff (a b : String) :
    localeCompare a b ≤ 0 ↔ a ≤ b := by
  rw [String.le_iff_toList_le, ← @not_lt _ _ b.toList a.toList]
  exact strCmp_nonpos_iff a.toList b.toList

theorem jsLe_total (opt : String) (a b : Doll) :
    jsLe opt a b || jsLe opt b a := by
  simp only [jsLe, jsCompare]
  split_ifs <;>
    simp only [Bool.or_eq_true, decide_eq_true_eq]
  · omega
  · omega
  · rw [localeCompare_nonpos_iff, localeCompare_nonpos_iff]
    exact le_total a.name b.name
  · rw [localeCompare_nonpos_iff, localeCompare_nonpos_iff]
    exact le_total b.name a.name
  · omega

theorem jsLe_trans (opt : String) (a b c : Doll)
    (h1 : jsLe opt a b = true) (h2 : jsLe opt b c = true) :
    jsLe opt a c = true := by
  simp only [jsLe, jsCompare, decide_eq_true_eq] at h1 h2 ⊢
  split_ifs at h1 h2 ⊢
  · omega
  · omega
  · rw [localeCompare_nonpos_iff] at h1 h2 ⊢
    exact le_trans h1 h2
  · rw [localeCompare_nonpos_iff] at h1 h2 ⊢
    exact le_trans h2 h1
  · omega

theorem mergeSort_pair (le : α → α → Bool) (a b : α) :
    List.mergeSort [a, b] le = if le a b then [a, b] else [b, a] := by
  rw [List.mergeSort]
  simp [List.splitInTwo, List.splitAt_eq, List.merge]

theorem spec_new_rule (now created : Int) :
    ceilDivNat (now - created).natAbs msPerDay ≤ 30 ↔
      ⌈|(now : ℚ) - (created : ℚ)| / 1000 / 86400⌉ ≤ 30 := by
  have hx : |(now : ℚ) - (created : ℚ)| = ((now - created).natAbs : ℚ) := by
    rw [Int.cast_natAbs]
    push_cast
    ring
  rw [hx, div_div]
  set x := (now - created).natAbs with hxdef
  have h1 : ceilDivNat x msPerDay ≤ 30 ↔ x ≤ 2592000000 := by
    unfold ceilDivNat msPerDay
    omega
  have h2 : ⌈(x : ℚ) / (1000 * 86400)⌉ ≤ 30 ↔ (x : ℚ) ≤ 2592000000 := by
    rw [Int.ceil_le, div_le_iff₀ (by norm_num : (0 : ℚ) < 1000 * 86400)]
    norm_num
  rw [h1, h2]
  exact_mod_cast Iff.rfl

/-- C1: the new-item classification used by both the `NEW` filter and the
`DollCard` badge holds exactly when the ceiling of the absolute age over
one day (86400 seconds, i.e. dividing the millisecond age by 1000 and
then 86400) is at most 30; an item created exactly 30 times 86400
seconds before now is classified new, and one created one second longer
ago is not. -/
theorem new_classification_boundary (now : Int) (d : Doll) :
    newPred now d = isNewBadge now d ∧
    (newPred now d = true ↔
      ⌈|(now : ℚ) - (d.created_at : ℚ)| / 1000 / 86400⌉ ≤ 30) ∧
    (d.created_at = now - 30 * 86400000 → newPred now d = true) ∧
    (d.created_at = now - (30 * 86400000 + 1000) → newPred now d = false) := by
  refine ⟨rfl, ?_, ?_, ?_⟩
  · rw [show (newPred now d = true) ↔
        ceilDivNat (now - d.created_at).natAbs msPerDay ≤ 30 from by
      simp [newPred]]
    exact spec_new_rule now d.created_at
  · intro h
    have e : (now - d.created_at).natAbs = 2592000000 := by
      rw [h]; omega
    simp [newPred, e, ceilDivNat, msPerDay]
  · intro h
    have e : (now - d.created_at).natAbs = 2592001000 := by
      rw [h]; omega
    simp [newPred, e, ceilDivNat, msPerDay]

theorem compressDims_eq_specDims (w h : ℚ) : compressDims w h = specDims w h := by
  unfold compressDims specDims
  by_cases h1 : w > h
  · by_cases h2 : w > 1080
    · rw [if_pos h1, if_pos h2, if_pos ⟨h1.le, h2⟩]
      have hw : w ≠ 0 := (show (0 : ℚ) < w by linarith).ne'
      rw [show w * (1080 / w) = 1080 by field_simp]
    · rw [if_pos h1, if_neg h2, if_neg (fun hc => h2 hc.2),
        if_neg (show ¬ h > 1080 by linarith)]
  · by_cases h2 : h > 1080
    · by_cases h3 : w ≥ h
      · obtain rfl := le_antisymm (not_lt.mp h1) h3
        rw [if_neg h1, if_pos h2, if_pos ⟨le_refl _, h2⟩]
        have hw : w ≠ 0 := (show (0 : ℚ) < w by linarith).ne'
        rw [show w * (1080 / w) = 1080 by field_simp]
      · rw [if_neg h1, if_pos h2, if_neg (fun hc => h3 hc.1), if_pos h2]
        have hh : h ≠ 0 := (show (0 : ℚ) < h by linarith).ne'
        rw [show h * (1080 / h) = 1080 by field_simp]
    · rw [if_neg h1, if_neg h2,
        if_neg (show ¬ (w ≥ h ∧ w > 1080) from
          fun hc => h2 (lt_of_lt_of_le hc.2 (not_lt.mp h1))),
        if_neg h2]

/-- C2: the normalization pipeline computes target dimensions exactly as
the specification words it (cap the longer side at 1080, no upscaling),
with the worked examples 2000 by 1000 to 1080 by 540 and 800 by 600
unchanged. -/
theorem normalization_dims_spec :
    (∀ w h : ℚ, compressDims w h = specDims w h) ∧
    compressDims 2000 1000 = (1080, 540) ∧
    compressDims 800 600 = (800, 600) := by
  refine ⟨compressDims_eq_specDims, ?_, ?_⟩
  · norm_num [compressDims]
  · norm_num [compressDims]

/-- A concrete item with the given name, catch date and creation
timestamp, for the worked examples of the specification. -/
def sampleDoll (name : String) (cd : Option String) (created : Int) : Doll :=
  { id := name, name := name, description := none, size := "Normal",
    category_id := none, topic_id := "t", catch_date := cd,
    image_url := "", created_at := created }

/-- C3: under `DATE_FILTER` with a set value, an item is kept iff its
catch date is non-null and starts with the value; a null catch date is
never kept; an empty value is a no-op; and on the worked example with
value 2024-05 only the 2024-05-03 item survives. -/
theorem date_filter_keeps (v : String) (nowMs : Int) (l : List Doll)
    (d : Doll) :
    (v ≠ "" →
      (d ∈ filterStep "DATE_FILTER" v nowMs l ↔
        d ∈ l ∧ ∃ s, d.catch_date = some s ∧ jsStartsWith s v = true)) ∧
    (v ≠ "" → d.catch_date = none →
      d ∉ filterStep "DATE_FILTER" v nowMs l) ∧
    filterStep "DATE_FILTER" "" nowMs l = l ∧
    filterStep "DATE_FILTER" "2024-05" nowMs
        [sampleDoll "May" (some "2024-05-03") 0,
         sampleDoll "June" (some "2024-06-01") 0] =
      [sampleDoll "May" (some "2024-05-03") 0] := by
  have hbranch : ∀ w : String, w ≠ "" →
      filterStep "DATE_FILTER" w nowMs l = l.filter (catchPred w) := by
    intro w hw
    simp [filterStep, hw]
  refine ⟨?_, ?_, ?_, ?_⟩
  · intro hv
    rw [hbranch v hv, List.mem_filter]
    cases hc : d.catch_date with
    | none => simp [catchPred, hc]
    | some s => simp [catchPred, hc]
  · intro hv hnone
    rw [hbranch v hv, List.mem_filter]
    simp [catchPred, hnone]
  · simp [filterStep]
  · have : filterStep "DATE_FILTER" "2024-05" nowMs
        [sampleDoll "May" (some "2024-05-03") 0,
         sampleDoll "June" (some "2024-06-01") 0] =
        List.filter (catchPred "2024-05")
          [sampleDoll "May" (some "2024-05-03") 0,
           sampleDoll "June" (some "2024-06-01") 0] := by
      simp [filterStep]
    rw [this]
    decide

theorem date_filter_keeps_witness :
    ("2024-05" : String) ≠ "" ∧
    (sampleDoll "May" (some "2024-05-03") 0 ∈
        filterStep "DATE_FILTER" "2024-05" 0
          [sampleDoll "May" (some "2024-05-03") 0,
           sampleDoll "June" (some "2024-06-01") 0] ↔
      sampleDoll "May" (some "2024-05-03") 0 ∈
          [sampleDoll "May" (some "2024-05-03") 0,
           sampleDoll "June" (some "2024-06-01") 0] ∧
        ∃ s, (sampleDoll "May" (some "2024-05-03") 0).catch_date = some s ∧
          jsStartsWith s "2024-05" = true) ∧
    (sampleDoll "N" none 0).catch_date = none ∧
    sampleDoll "N" none 0 ∉
      filterStep "DATE_FILTER" "2024-05" 0 [sampleDoll "N" none 0] :=
  ⟨by decide,
   (date_filter_keeps "2024-05" 0 _ _).1 (by decide),
   rfl,
   (date_filter_keeps "2024-05" 0 _ _).2.1 (by decide) rfl⟩

theorem jsCompare_date_desc (a b : Doll) :
    jsCompare "DATE_DESC" a b = b.created_at - a.created_at := by
  simp [jsCompare]

theorem jsCompare_date_asc (a b : Doll) :
    jsCompare "DATE_ASC" a b = a.created_at - b.created_at := by
  simp [jsCompare]

theorem jsCompare_name_asc (a b : Doll) :
    jsCompare "NAME_ASC" a b = localeCompare a.name b.name := by
  simp [jsCompare]

theorem jsCompare_name_desc (a b : Doll) :
    jsCompare "NAME_DESC" a b = localeCompare b.name a.name := by
  simp [jsCompare]

theorem jsLe_date_desc (a b : Doll) :
    jsLe "DATE_DESC" a b = true ↔ b.created_at ≤ a.created_at := by
  unfold jsLe
  rw [jsCompare_date_desc, decide_eq_true_eq]
  omega

theorem jsLe_date_asc (a b : Doll) :
    jsLe "DATE_ASC" a b = true ↔ a.created_at ≤ b.created_at := by
  unfold jsLe
  rw [jsCompare_date_asc, decide_eq_true_eq]
  omega

theorem jsLe_name_asc (a b : Doll) :
    jsLe "NAME_ASC" a b = true ↔ a.name ≤ b.name := by
  unfold jsLe
  rw [jsCompare_name_asc, decide_eq_true_eq]
  exact localeCompare_nonpos_iff a.name b.name

theorem jsLe_name_desc (a b : Doll) :
    jsLe "NAME_DESC" a b = true ↔ b.name ≤ a.name := by
  unfold jsLe
  rw [jsCompare_name_desc, decide_eq_true_eq]
  exact localeCompare_nonpos_iff b.name a.name

theorem sortDolls_pairwise (opt : String) (l : List Doll) :
    (sortDolls opt l).Pairwise (fun a b => jsLe opt a b = true) :=
  List.sorted_mergeSort
    (fun a b c h1 h2 => jsLe_trans opt a b c h1 h2)
    (jsLe_total opt) l

/-- C4: the sort stage orders the filtered list by the comparator of
`sortOption` (a permutation of its input that is pairwise ordered by the
corresponding key: creation timestamp descending or ascending, name
ascending or descending), and on the worked pair Bella at time 0 and
Apollo one day later both `NAME_ASC` and `DATE_DESC` put Apollo first. -/
theorem sort_by_option (l : List Doll) :
    (sortDolls "DATE_DESC" l).Pairwise
      (fun a b => b.created_at ≤ a.created_at) ∧
    (sortDolls "DATE_ASC" l).Pairwise
      (fun a b => a.created_at ≤ b.created_at) ∧
    (sortDolls "NAME_ASC" l).Pairwise (fun a b => a.name ≤ b.name) ∧
    (sortDolls "NAME_DESC" l).Pairwise (fun a b => b.name ≤ a.name) ∧
    (∀ opt, (sortDolls opt l).Perm l) ∧
    (sortDolls "NAME_ASC"
        [sampleDoll "Bella" none 0,
         sampleDoll "Apollo" none 86400000]).map Doll.name =
      ["Apollo", "Bella"] ∧
    (sortDolls "DATE_DESC"
        [sampleDoll "Bella" none 0,
         sampleDoll "Apollo" none 86400000]).map Doll.name =
      ["Apollo", "Bella"] := by
  refine ⟨?_, ?_, ?_, ?_, ?_, ?_, ?_⟩
  · exact (sortDolls_pairwise "DATE_DESC" l).imp
      (fun h => (jsLe_date_desc _ _).mp h)
  · exact (sortDolls_pairwise "DATE_ASC" l).imp
      (fun h => (jsLe_date_asc _ _).mp h)
  · exact (sortDolls_pairwise "NAME_ASC" l).imp
      (fun h => (jsLe_name_asc _ _).mp h)
  · exact (sortDolls_pairwise "NAME_DESC" l).imp
      (fun h => (jsLe_name_desc _ _).mp h)
  · intro opt
    exact List.mergeSort_perm l (jsLe opt)
  · rw [sortDolls, mergeSort_pair]
    decide
  · rw [sortDolls, mergeSort_pair]
    decide

/-- C5: the sort stage is stable: two items whose comparator value is
zero keep, in the sorted output, the relative order they had in the
input (stated via pair sublists). -/
theorem sort_stable (opt : String) (a b : Doll) (l : List Doll)
    (hk : jsCompare opt a b = 0) (hsub : [a, b].Sublist l) :
    [a, b].Sublist (sortDolls opt l) := by
  have hab : jsLe opt a b = true := by
    simp [jsLe, hk]
  exact List.pair_sublist_mergeSort
    (fun x y z h1 h2 => jsLe_trans opt x y z h1 h2)
    (jsLe_total opt) hab hsub

theorem sort_stable_witness :
    jsCompare "DATE_DESC" (sampleDoll "A" none 5) (sampleDoll "B" none 5)
        = 0 ∧
    [sampleDoll "A" none 5, sampleDoll "B" none 5].Sublist
      [sampleDoll "A" none 5, sampleDoll "X" none 99,
       sampleDoll "B" none 5] ∧
    [sampleDoll "A" none 5, sampleDoll "B" none 5].Sublist
      (sortDolls "DATE_DESC"
        [sampleDoll "A" none 5, sampleDoll "X" none 99,
         sampleDoll "B" none 5]) :=
  ⟨by decide, by decide,
   sort_stable "DATE_DESC" _ _ _ (by decide) (by decide)⟩

/-- C6: the sort stage is idempotent: a list already sorted under a
given `sortOption` (pairwise ordered by the nonpositive part of the
comparator) is returned unchanged by sorting again under the same option. -/
theorem sort_idempotent_on_sorted (opt : String) (l : List Doll)
    (hsorted : l.Pairwise (fun a b => jsLe opt a b = true)) :
    sortDolls opt l = l :=
  List.mergeSort_of_sorted hsorted

theorem sort_idempotent_on_sorted_witness :
    ([sampleDoll "A" none 10, sampleDoll "B" none 5] : List Doll).Pairwise
      (fun a b => jsLe "DATE_DESC" a b = true) ∧
    sortDolls "DATE_DESC" [sampleDoll "A" none 10, sampleDoll "B" none 5] =
      [sampleDoll "A" none 10, sampleDoll "B" none 5] :=
  ⟨by decide, sort_idempotent_on_sorted "DATE_DESC" _ (by decide)⟩

/-- C7: the search and filter stages only ever discard items (their
composition is a sublist, hence a subset, of the input), and the whole
pipeline maps an empty input to an empty result. -/
theorem search_filter_subset (q actF dfv : String) (nowMs : Int)
    (l : List Doll) :
    (filterStep actF dfv nowMs (searchStep q l)).Sublist l ∧
    (∀ opt, processedDolls q actF dfv opt nowMs [] = []) := by
  constructor
  · have h1 : (searchStep q l).Sublist l := by
      unfold searchStep
      split_ifs
      · exact List.Sublist.refl l
      · exact List.filter_sublist l
    have h2 : (filterStep actF dfv nowMs (searchStep q l)).Sublist
        (searchStep q l) := by
      unfold filterStep
      split_ifs <;> first
        | exact List.Sublist.refl _
        | exact List.filter_sublist _
    exact h2.trans h1
  · intro opt
    unfold processedDolls searchStep filterStep sortDolls
    split_ifs <;> simp

/-- C8: submitting with an empty size set or no image is rejected by a
validation alert before any collaborator call: the run performs no
compression, no upload, no URL lookup and no insert. -/
theorem submit_validation_blocks (form : NewDollForm)
    (compressOk uploadOk insertOk : Bool)
    (h : form.size = [] ∨ form.imageFile = none) :
    ((handleSubmit form compressOk uploadOk insertOk).1 =
        SubmitOutcome.alertImageRequired ∨
      (handleSubmit form compressOk uploadOk insertOk).1 =
        SubmitOutcome.alertSizeRequired) ∧
    (handleSubmit form compressOk uploadOk insertOk).2 = [] := by
  rcases h with h | h
  · cases hf : form.imageFile with
    | none => simp [handleSubmit, hf]
    | some f => simp [handleSubmit, hf, h]
  · simp [handleSubmit, h]

/-- A concrete form whose size set is empty but whose image is present,
exercising the size-validation guard. -/
def emptySizeForm : NewDollForm :=
  { name := "n", description := "", size := [], category_id := "",
    catch_date := "", imageFile := some "img" }

theorem submit_validation_blocks_witness :
    (emptySizeForm.size = [] ∨ emptySizeForm.imageFile = none) ∧
    ((handleSubmit emptySizeForm true true true).1 =
        SubmitOutcome.alertImageRequired ∨
      (handleSubmit emptySizeForm true true true).1 =
        SubmitOutcome.alertSizeRequired) ∧
    (handleSubmit emptySizeForm true true true).2 = [] :=
  ⟨Or.inl rfl,
   (submit_validation_blocks emptySizeForm true true true (Or.inl rfl)).1,
   (submit_validation_blocks emptySizeForm true true true (Or.inl rfl)).2⟩

/-- C9: a failure anywhere in the fallible body of either AI wrapper is
caught: `identifyDoll` returns the empty-name placeholder object and
`suggestCategory` returns the Unknown placeholder, and both wrappers
return a plain value, so the error never reaches the caller. -/
theorem ai_failure_fallback (fileRes : Except String String)
    (gen : String → Except String String)
    (parseI : String → Except String IdentifyResult)
    (parseS : String → Except String String) :
    (∀ e, identifyRun fileRes gen parseI = .error e →
      identifyDoll fileRes gen parseI = identifyFallback) ∧
    (∀ e, suggestRun fileRes gen parseS = .error e →
      suggestCategory fileRes gen parseS = "Unknown") := by
  constructor
  · intro e h
    simp [identifyDoll, h]
  · intro e h
    simp [suggestCategory, h]

theorem ai_failure_fallback_witness :
    identifyRun (.error "boom") (fun _ => .ok "") (fun _ => .ok identifyFallback)
        = .error "boom" ∧
    identifyDoll (.error "boom") (fun _ => .ok "")
        (fun _ => .ok identifyFallback) = identifyFallback ∧
    suggestRun (.error "boom") (fun _ => .ok "") (fun _ => .ok "cats")
        = .error "boom" ∧
    suggestCategory (.error "boom") (fun _ => .ok "") (fun _ => .ok "cats")
        = "Unknown" :=
  ⟨rfl,
   (ai_failure_fallback (.error "boom") (fun _ => .ok "")
      (fun _ => .ok identifyFallback) (fun _ => .ok "cats")).1 "boom" rfl,
   rfl,
   (ai_failure_fallback (.error "boom") (fun _ => .ok "")
      (fun _ => .ok identifyFallback) (fun _ => .ok "cats")).2 "boom" rfl⟩

/-- C10: the search predicate is total on items with a null description:
for a non-empty query it reduces to the case-insensitive name test
alone, both on the predicate itself and through the search stage. -/
theorem search_null_description (q : String) (d : Doll)
    (hq : q ≠ "") (hd : d.description = none) :
    searchPred q d = jsIncludes (jsToLower d.name) (jsToLower q) ∧
    (∀ l, d ∈ searchStep q l ↔
      d ∈ l ∧ jsIncludes (jsToLower d.name) (jsToLower q) = true) := by
  have hpred : searchPred q d = jsIncludes (jsToLower d.name) (jsToLower q) := by
    simp [searchPred, hd]
  refine ⟨hpred, ?_⟩
  intro l
  rw [searchStep, if_neg hq, List.mem_filter, hpred]

theorem search_null_description_witness :
    ("cat" : String) ≠ "" ∧
    (sampleDoll "Cat" none 0).description = none ∧
    searchPred "cat" (sampleDoll "Cat" none 0) =
      jsIncludes (jsToLower (sampleDoll "Cat" none 0).name)
        (jsToLower "cat") ∧
    (sampleDoll "Cat" none 0 ∈ searchStep "cat" [sampleDoll "Cat" none 0] ↔
      sampleDoll "Cat" none 0 ∈ [sampleDoll "Cat" none 0] ∧
        jsIncludes (jsToLower (sampleDoll "Cat" none 0).name)
          (jsToLower "cat") = true) :=
  ⟨by decide, rfl,
   (search_null_description "cat" (sampleDoll "Cat" none 0)
      (by decide) rfl).1,
   (search_null_description "cat" (sampleDoll "Cat" none 0)
      (by decide) rfl).2 [sampleDoll "Cat" none 0]⟩

theorem new_classification_boundary_witness :
    ((sampleDoll "X" none 0).created_at =
        (2592000000 : Int) - 30 * 86400000 ∧
      newPred 2592000000 (sampleDoll "X" none 0) = true) ∧
    ((sampleDoll "Y" none 0).created_at =
        (2592001000 : Int) - (30 * 86400000 + 1000) ∧
      newPred 2592001000 (sampleDoll "Y" none 0) = false) :=
  ⟨⟨by norm_num [sampleDoll],
    (new_classification_boundary 2592000000 (sampleDoll "X" none 0)).2.2.1
      (by norm_num [sampleDoll])⟩,
   ⟨by norm_num [sampleDoll],
    (new_classification_boundary 2592001000 (sampleDoll "Y" none 0)).2.2.2
      (by norm_num [sampleDoll])⟩⟩
